import Mathlib

/-!
Shallow embedding of the LoraUrbit bridge (LoRaWAN ↔ application host):
the LoRaWAN PHY codec (src/lorawan/mod.rs, src/lorawan/encoder.rs), the
GWMP datagram codec and UDP server dispatch (src/udp/protocol.rs,
src/udp/mod.rs), the outbox poller (src/main.rs), the gateway-pair relay
(src/bin/gateway_pair.rs) and the Airlock HTTP client's id/session state
(src/urbit/airlock.rs).  Bytes are modelled as `Nat` (values < 256 where
they originate from the wire), machine integers as `Nat` with explicit
reductions modulo 2^16 / 2^32, fallible code as `Except` / `Option`.
-/

namespace LoraUrbit

/-- Network addresses (Rust `SocketAddr`) are opaque to all verified code;
they are only stored and compared, so we model them as `Nat`. -/
abbrev Addr := Nat

instance {ε α : Type} [DecidableEq ε] [DecidableEq α] : DecidableEq (Except ε α) := fun a b =>
  match a, b with
  | .error e, .error f => if h : e = f then isTrue (by subst h; rfl) else isFalse (by simp [h])
  | .error _, .ok _ => isFalse (by simp)
  | .ok _, .error _ => isFalse (by simp)
  | .ok x, .ok y => if h : x = y then isTrue (by subst h; rfl) else isFalse (by simp [h])

/-- Value of a list of little-endian bytes, each byte taken mod 256
(mirrors `uN::from_le_bytes`, whose arguments are `u8`s). -/
def leNat : List Nat → Nat
  | [] => 0
  | b :: r => b % 256 + 256 * leNat r

/-- Little-endian byte string of width `w` for `n`
(mirrors `uN::to_le_bytes`). -/
def natToLe : Nat → Nat → List Nat
  | 0, _ => []
  | w + 1, n => n % 256 :: natToLe w (n / 256)

/-- LoRaWAN MAC message type (src/lorawan/mod.rs `MType`). -/
inductive MType
  | joinRequest
  | joinAccept
  | unconfirmedDataUp
  | unconfirmedDataDown
  | confirmedDataUp
  | confirmedDataDown
  | rejoinRequest
  | proprietary
deriving DecidableEq, Repr

/-- MType from the MHDR byte: `(value >> 5) & 0x07`
(src/lorawan/mod.rs `TryFrom<u8> for MType`; total on u8 values). -/
def mtypeOfByte (b : Nat) : MType :=
  match b % 256 / 32 with
  | 0 => .joinRequest
  | 1 => .joinAccept
  | 2 => .unconfirmedDataUp
  | 3 => .unconfirmedDataDown
  | 4 => .confirmedDataUp
  | 5 => .confirmedDataDown
  | 6 => .rejoinRequest
  | _ => .proprietary

/-- Frame control byte fields (src/lorawan/mod.rs `FCtrl`). -/
structure FCtrl where
  adr : Bool
  adrAckReq : Bool
  ack : Bool
  classB : Bool
  fOptsLen : Nat
deriving DecidableEq, Repr

/-- Decoded LoRaWAN MAC frame (src/lorawan/mod.rs `LoRaWANFrame`). -/
inductive LoRaWANFrame
  | data (mtype : MType) (devAddr : Nat) (fctrl : FCtrl) (fcnt : Nat)
      (fOpts : List Nat) (fPort : Option Nat) (frmPayload : List Nat) (mic : Nat)
  | joinRequest (appEui devEui devNonce mic : Nat)
  | joinAccept (encryptedPayload : List Nat)
  | proprietary (payload : List Nat)
deriving DecidableEq, Repr

/-- Decode-failure reasons of the LoRaWAN decoder. -/
inductive LwErr
  | emptyPayload
  | joinRequestLen
  | dataTooShort
  | fOptsOverlap
  | rejoinUnsupported
deriving DecidableEq, Repr

/-- Join-request decoder (src/lorawan/mod.rs `decode_join_request`):
exactly 23 bytes, all fields little-endian. -/
def decode_join_request (data : List Nat) : Except LwErr LoRaWANFrame :=
  if data.length ≠ 23 then .error .joinRequestLen
  else
    .ok (.joinRequest (leNat ((data.drop 1).take 8)) (leNat ((data.drop 9).take 8))
      (leNat ((data.drop 17).take 2)) (leNat (data.drop 19)))

/-- Data-frame decoder (src/lorawan/mod.rs `decode_data_frame`). -/
def decode_data_frame (mtype : MType) (data : List Nat) : Except LwErr LoRaWANFrame :=
  if data.length < 12 then .error .dataTooShort
  else
    let devAddr := leNat ((data.drop 1).take 4)
    let fctrlByte := data.getD 5 0 % 256
    let fctrl : FCtrl :=
      ⟨fctrlByte / 128 % 2 = 1, fctrlByte / 64 % 2 = 1, fctrlByte / 32 % 2 = 1,
        fctrlByte / 16 % 2 = 1, fctrlByte % 16⟩
    let fcnt := leNat ((data.drop 6).take 2)
    let fOptsEnd := 8 + fctrl.fOptsLen
    if fOptsEnd > data.length - 4 then .error .fOptsOverlap
    else
      let fOpts := (data.drop 8).take fctrl.fOptsLen
      let micStart := data.length - 4
      let fPort : Option Nat := if fOptsEnd < micStart then some (data.getD fOptsEnd 0) else none
      let frmPayload : List Nat :=
        if fOptsEnd < micStart then (data.drop (fOptsEnd + 1)).take (micStart - (fOptsEnd + 1))
        else []
      let mic := leNat (data.drop micStart)
      .ok (.data mtype devAddr fctrl fcnt fOpts fPort frmPayload mic)

/-- PHY-payload decoder (src/lorawan/mod.rs `decode_phy_payload`):
dispatch on the MHDR's message-type bits. -/
def decode_phy_payload (data : List Nat) : Except LwErr LoRaWANFrame :=
  match data with
  | [] => .error .emptyPayload
  | mhdr :: _ =>
    match mtypeOfByte mhdr with
    | .joinRequest => decode_join_request data
    | .joinAccept => .ok (.joinAccept (data.drop 1))
    | .unconfirmedDataUp => decode_data_frame .unconfirmedDataUp data
    | .unconfirmedDataDown => decode_data_frame .unconfirmedDataDown data
    | .confirmedDataUp => decode_data_frame .confirmedDataUp data
    | .confirmedDataDown => decode_data_frame .confirmedDataDown data
    | .proprietary => .ok (.proprietary (data.drop 1))
    | .rejoinRequest => .error .rejoinUnsupported

/-- Downlink frame-builder parameters (src/lorawan/encoder.rs `FrameBuilder`);
`devAddr` is a u32, `fcnt` a u16, `fPort` a u8, reductions applied where the
bytes are emitted. -/
structure FrameBuilder where
  mtype : MType
  devAddr : Nat
  fcnt : Nat
  fPort : Nat
  payload : List Nat
deriving DecidableEq, Repr

/-- FrameBuilder::new_downlink (src/lorawan/encoder.rs). -/
def FrameBuilder.new_downlink (devAddr fcnt fPort : Nat) (payload : List Nat) : FrameBuilder :=
  ⟨.unconfirmedDataDown, devAddr, fcnt, fPort, payload⟩

/-- MHDR byte emitted by FrameBuilder::build for each message type
(src/lorawan/encoder.rs, the `match self.mtype` in `build`). -/
def mhdrOf : MType → Nat
  | .unconfirmedDataDown => 0x60
  | .confirmedDataDown => 0xA0
  | .unconfirmedDataUp => 0x40
  | .confirmedDataUp => 0x80
  | _ => 0x60

/-- FrameBuilder::build (src/lorawan/encoder.rs): MHDR, little-endian DevAddr,
zero FCtrl, little-endian FCnt, FPort and payload only when the payload is
non-empty, four zero MIC bytes. -/
def FrameBuilder.build (b : FrameBuilder) : List Nat :=
  mhdrOf b.mtype :: (natToLe 4 b.devAddr ++ [0] ++ natToLe 2 b.fcnt ++
    (if b.payload.isEmpty then [] else b.fPort % 256 :: b.payload) ++ [0, 0, 0, 0])

/-- UTF-8 validity of a byte string (RFC 3629 ranges), modelling Rust's
`String::from_utf8` success condition used by GwmpPacket::parse. -/
def validUtf8 : List Nat → Bool
  | [] => true
  | b :: rest =>
    if b < 0x80 then validUtf8 rest
    else if b < 0xC2 then false
    else if b < 0xE0 then
      match rest with
      | b1 :: r => 0x80 ≤ b1 && b1 < 0xC0 && validUtf8 r
      | [] => false
    else if b < 0xF0 then
      match rest with
      | b1 :: b2 :: r =>
        (if b = 0xE0 then 0xA0 ≤ b1 && b1 < 0xC0
         else if b = 0xED then 0x80 ≤ b1 && b1 < 0xA0
         else 0x80 ≤ b1 && b1 < 0xC0) &&
        (0x80 ≤ b2 && b2 < 0xC0) && validUtf8 r
      | _ => false
    else if b < 0xF5 then
      match rest with
      | b1 :: b2 :: b3 :: r =>
        (if b = 0xF0 then 0x90 ≤ b1 && b1 < 0xC0
         else if b = 0xF4 then 0x80 ≤ b1 && b1 < 0x90
         else 0x80 ≤ b1 && b1 < 0xC0) &&
        (0x80 ≤ b2 && b2 < 0xC0) && (0x80 ≤ b3 && b3 < 0xC0) && validUtf8 r
      | _ => false
    else false

/-- Parsed GWMP packet (src/udp/protocol.rs `GwmpPacket`): only the three
inbound kinds the parser constructs; the JSON payload is kept as its UTF-8
bytes. -/
inductive GwmpPacket
  | pushData (token : Nat) (eui : List Nat) (jsonPayload : List Nat)
  | pullData (token : Nat) (eui : List Nat)
  | txAck (token : Nat) (eui : List Nat) (jsonPayload : Option (List Nat))
deriving DecidableEq, Repr

/-- Failure reasons of GwmpPacket::parse (src/udp/protocol.rs):
`tooShort` ("Packet too short"), `badVersion` ("Unsupported protocol
version"), `unknownType` ("Unknown packet type", from `PacketType::try_from`),
`bodyTooShort` ("... too short for gateway EUI"), `invalidUtf8`
("Invalid UTF-8 in JSON payload"), and `unexpectedType` ("Unexpected packet
type for parsing", the `_` arm hit by PushAck/PullResp/PullAck). -/
inductive GwmpErr
  | tooShort
  | badVersion
  | unknownType
  | bodyTooShort
  | invalidUtf8
  | unexpectedType
deriving DecidableEq, Repr

/-- GwmpPacket::parse (src/udp/protocol.rs lines 104-178): version byte must
be 0x02, big-endian 16-bit token, kind byte via PacketType::try_from, then a
per-kind body; kinds PushAck (0x01), PullResp (0x03) and PullAck (0x04) are
valid PacketTypes but fall into the final `_` arm and error. -/
def GwmpPacket.parse (data : List Nat) : Except GwmpErr GwmpPacket :=
  if data.length < 4 then .error .tooShort
  else
    let version := data.getD 0 0 % 256
    if version ≠ 2 then .error .badVersion
    else
      let token := data.getD 1 0 % 256 * 256 + data.getD 2 0 % 256
      let kind := data.getD 3 0 % 256
      let rest := data.drop 4
      match kind with
      | 0 =>
        if rest.length < 8 then .error .bodyTooShort
        else if validUtf8 (rest.drop 8) then .ok (.pushData token (rest.take 8) (rest.drop 8))
        else .error .invalidUtf8
      | 2 =>
        if rest.length < 8 then .error .bodyTooShort
        else .ok (.pullData token (rest.take 8))
      | 5 =>
        if rest.length < 8 then .error .bodyTooShort
        else if rest.length = 8 then .ok (.txAck token (rest.take 8) none)
        else if validUtf8 (rest.drop 8) then .ok (.txAck token (rest.take 8) (some (rest.drop 8)))
        else .error .invalidUtf8
      | 1 => .error .unexpectedType
      | 3 => .error .unexpectedType
      | 4 => .error .unexpectedType
      | _ => .error .unknownType

/-- GwmpPacket::push_ack (src/udp/protocol.rs): version, big-endian token,
kind 0x01. -/
def push_ack (token : Nat) : List Nat :=
  [2, token % 65536 / 256, token % 256, 1]

/-- GwmpPacket::pull_ack (src/udp/protocol.rs): version, big-endian token,
kind 0x04. -/
def pull_ack (token : Nat) : List Nat :=
  [2, token % 65536 / 256, token % 256, 4]

/-- Index of a character in the standard base64 alphabet. -/
def b64Idx (c : Char) : Option Nat :=
  if 'A' ≤ c ∧ c ≤ 'Z' then some (c.toNat - 65)
  else if 'a' ≤ c ∧ c ≤ 'z' then some (c.toNat - 71)
  else if '0' ≤ c ∧ c ≤ '9' then some (c.toNat + 4)
  else if c = '+' then some 62
  else if c = '/' then some 63
  else none

/-- Strict standard-alphabet base64 decoding over 4-character groups with
canonical padding and zero trailing bits, modelling
`base64::engine::general_purpose::STANDARD.decode` (src/udp/mod.rs
`base64_decode`). -/
def base64DecodeChars : List Char → Option (List Nat)
  | [] => some []
  | c0 :: c1 :: c2 :: c3 :: rest => do
    let a ← b64Idx c0
    let b ← b64Idx c1
    if c2 = '=' then
      if c3 = '=' ∧ rest = [] ∧ b % 16 = 0 then some [a * 4 + b / 16] else none
    else do
      let c ← b64Idx c2
      if c3 = '=' then
        if rest = [] ∧ c % 4 = 0 then some [a * 4 + b / 16, b % 16 * 16 + c / 4] else none
      else do
        let d ← b64Idx c3
        let tl ← base64DecodeChars rest
        some ((a * 4 + b / 16) :: (b % 16 * 16 + c / 4) :: (c % 4 * 64 + d) :: tl)
  | _ => none

/-- base64_decode (src/udp/mod.rs). -/
def base64_decode (s : String) : Option (List Nat) := base64DecodeChars s.data

/-- Lowercase hex digit for a value below 16. -/
def hexDigitChar (n : Nat) : Char :=
  if n < 10 then Char.ofNat (48 + n) else Char.ofNat (87 + n)

/-- Uppercase hex digit for a value below 16. -/
def hexUpperChar (n : Nat) : Char :=
  if n < 10 then Char.ofNat (48 + n) else Char.ofNat (55 + n)

/-- Lowercase hex encoding of a byte string (`hex::encode`). -/
def hexEncode (bs : List Nat) : String :=
  String.mk (bs.flatMap fun b => [hexDigitChar (b % 256 / 16), hexDigitChar (b % 16)])

/-- Rust formatting `{:08X}` of a u32 value (8 uppercase hex digits). -/
def hexUpper8 (n : Nat) : String :=
  String.mk ((List.range 8).map fun i => hexUpperChar (n / 16 ^ (7 - i) % 16))

/-- Rxpk record (src/udp/protocol.rs `Rxpk`); the f64 metadata fields
(freq, lsnr, rssi) are modelled as `Int` since no verified claim inspects
their values and floating point is outside the embedding. -/
structure Rxpk where
  time : Option String
  tmst : Option Nat
  tmms : Option Nat
  chan : Option Nat
  rfch : Option Nat
  freq : Int
  lsnr : Option Int
  rssi : Int
  modu : Option String
  datr : String
  codr : Option String
  size : Nat
  data : String
deriving DecidableEq, Repr

/-- PUSH_DATA JSON wrapper (src/udp/protocol.rs `PushDataPayload`); the
`stat` value is only logged, so it is modelled as presence. -/
structure PushDataPayload where
  rxpk : Option (List Rxpk)
  stat : Option Unit
deriving DecidableEq, Repr

/-- Packet origin (src/urbit/types.rs `PacketSource`). -/
inductive PacketSource
  | local
  | helium
deriving DecidableEq, Repr

/-- Decoded uplink snapshot (src/urbit/types.rs `LoRaPacket`); f64 fields as
`Int` as in `Rxpk`, and the `received_at` wall-clock timestamp (external
`chrono::Utc::now`) as `Unit`. -/
structure LoRaPacket where
  devAddr : String
  fcnt : Nat
  fPort : Option Nat
  payload : String
  rssi : Int
  snr : Option Int
  freq : Int
  dataRate : String
  gatewayEui : String
  receivedAt : Unit
  mtype : String
  source : PacketSource
deriving DecidableEq, Repr

/-- MType::to_string via the Display impl (src/lorawan/mod.rs). -/
def MType.name : MType → String
  | .joinRequest => "JoinRequest"
  | .joinAccept => "JoinAccept"
  | .unconfirmedDataUp => "UnconfirmedDataUp"
  | .unconfirmedDataDown => "UnconfirmedDataDown"
  | .confirmedDataUp => "ConfirmedDataUp"
  | .confirmedDataDown => "ConfirmedDataDown"
  | .rejoinRequest => "RejoinRequest"
  | .proprietary => "Proprietary"

/-- frame_to_lora_packet (src/udp/mod.rs): only Data frames yield a packet. -/
def frame_to_lora_packet (frame : LoRaWANFrame) (rxpk : Rxpk) (gatewayEui : String) :
    Option LoRaPacket :=
  match frame with
  | .data mtype devAddr _ fcnt _ fPort frmPayload _ =>
    some ⟨hexUpper8 devAddr, fcnt, fPort, hexEncode frmPayload, rxpk.rssi, rxpk.lsnr,
      rxpk.freq, rxpk.datr, gatewayEui, (), mtype.name, .local⟩
  | _ => none

/-- Observable actions of the UDP server's packet handler: a datagram sent
on the listening socket, or a decoded packet enqueued on the C3-to-C5
channel. -/
inductive SrvEffect
  | sendTo (dest : Addr) (bytes : List Nat)
  | chanSend (pkt : LoRaPacket)
deriving DecidableEq, Repr

/-- The PUSH_DATA arm of handle_packet (src/udp/mod.rs lines 187-258), as its
ordered effect list: the PUSH_ACK is sent to the source first; then, for each
rxpk of the externally parsed JSON body (`parsed` stands for the
`serde_json::from_str::<PushDataPayload>` result), base64-decode, LoRaWAN
decode and channel enqueue, where every failure only skips that rxpk. -/
def handlePushData (src : Addr) (token : Nat) (eui : List Nat)
    (parsed : Option PushDataPayload) : List SrvEffect :=
  .sendTo src (push_ack token) ::
  (match parsed with
   | none => []
   | some payload =>
     (payload.rxpk.getD []).flatMap fun rxpk =>
       match base64_decode rxpk.data with
       | none => []
       | some phy =>
         match decode_phy_payload phy with
         | .error _ => []
         | .ok frame =>
           match frame_to_lora_packet frame rxpk (hexEncode eui) with
           | none => []
           | some pkt => [.chanSend pkt])

/-- handle_packet (src/udp/mod.rs lines 179-336), effect view: PUSH_DATA
ACKs then processes rxpks, PULL_DATA sends PULL_ACK, TX_ACK only logs. -/
def handle_packet (pkt : GwmpPacket) (parsed : Option PushDataPayload) (src : Addr) :
    List SrvEffect :=
  match pkt with
  | .pushData token eui _ => handlePushData src token eui parsed
  | .pullData token _ => [.sendTo src (pull_ack token)]
  | .txAck _ _ _ => []

/-- Tracker update performed by handle_packet (src/udp/mod.rs): only the
PULL_DATA arm calls GatewayTracker::set with the datagram's source address;
every other arm leaves the tracker untouched. -/
def trackerAfter (pkt : GwmpPacket) (src : Addr) (old : Option Addr) : Option Addr :=
  match pkt with
  | .pullData _ _ => some src
  | _ => old

/-- Tracker state after the server processes a sequence of parsed datagrams,
each paired with its source address. -/
def processSeq (init : Option Addr) : List (GwmpPacket × Addr) → Option Addr
  | [] => init
  | (pkt, src) :: rest => processSeq (trackerAfter pkt src init) rest

/-- Source addresses of the PULL_DATA datagrams of a sequence, in order. -/
def pullDataSources (seq : List (GwmpPacket × Addr)) : List Addr :=
  seq.filterMap fun e =>
    match e.1 with
    | .pullData _ _ => some e.2
    | _ => none

/-- Token carried by a parsed GWMP packet. -/
def GwmpPacket.token : GwmpPacket → Nat
  | .pushData t _ _ => t
  | .pullData t _ => t
  | .txAck t _ _ => t

/-- Modelled from the spec: the Txpk transmit-packet request (§3, §4.1);
the `Txpk` struct itself is absent from src/udp/protocol.rs (only its
builder `build_txpk` in src/udp/mod.rs shows the fields). The f64 frequency
is modelled in tenths of MHz; option fields mirror the builder's use. -/
structure Txpk where
  imme : Bool
  tmst : Option Nat
  freqTenths : Nat
  rfch : Nat
  powe : Nat
  modu : String
  datr : String
  codr : String
  ipol : Bool
  size : Nat
  data : String
  ncrc : Bool
deriving DecidableEq, Repr

/-- build_txpk (src/udp/mod.rs lines 385-400): US915 Class C defaults around
a base64 payload. -/
def build_txpk (payloadB64 : String) (payloadSize : Nat) : Txpk :=
  ⟨true, none, 9233, 0, 27, "LORA", "SF12BW500", "4/5", true, payloadSize, payloadB64, true⟩

/-- JSON text of an optional number (null when absent). -/
def jsonOfOptNat : Option Nat → String
  | none => "null"
  | some n => toString n

/-- Decimal text of a tenths-of-MHz frequency. -/
def freqString (tenths : Nat) : String :=
  toString (tenths / 10) ++ "." ++ toString (tenths % 10)

/-- Modelled from the spec: serde_json serialization of a Txpk value (the
serde derive on the struct is absent from src); fields in declaration
order. -/
def jsonOfTxpk (t : Txpk) : String :=
  "\x7b\"imme\":" ++ (if t.imme then "true" else "false") ++
  ",\"tmst\":" ++ jsonOfOptNat t.tmst ++
  ",\"freq\":" ++ freqString t.freqTenths ++
  ",\"rfch\":" ++ toString t.rfch ++
  ",\"powe\":" ++ toString t.powe ++
  ",\"modu\":\"" ++ t.modu ++ "\"" ++
  ",\"datr\":\"" ++ t.datr ++ "\"" ++
  ",\"codr\":\"" ++ t.codr ++ "\"" ++
  ",\"ipol\":" ++ (if t.ipol then "true" else "false") ++
  ",\"size\":" ++ toString t.size ++
  ",\"data\":\"" ++ t.data ++ "\"" ++
  ",\"ncrc\":" ++ (if t.ncrc then "true" else "false") ++ "\x7d"

/-- Modelled from the spec: the PULL_RESP body `PullRespPayload` wrapper
(spec §4.1: "For PULL_RESP: a wrapper with a single txpk member"); the
struct is absent from src/udp/protocol.rs though imported by
src/udp/mod.rs. -/
def pullRespJson (t : Txpk) : String := "\x7b\"txpk\":" ++ jsonOfTxpk t ++ "\x7d"

/-- Byte string of an ASCII string (all strings serialized here are
ASCII). -/
def strBytes (s : String) : List Nat := s.data.map Char.toNat

/-- Modelled from the spec: GwmpPacket::pull_resp builder, absent from
src/udp/protocol.rs though called by send_downlink — spec §4.1: version
0x02, big-endian token, kind 0x03, JSON body with no gateway id. -/
def pull_resp (token : Nat) (json : List Nat) : List Nat :=
  2 :: token % 65536 / 256 :: token % 256 :: 3 :: json

/-- DownlinkSender::send_downlink (src/udp/mod.rs lines 60-80): read the
tracker; with no address fail (sending nothing); otherwise wrap the txpk in
the PullRespPayload envelope, prepend the PULL_RESP header with the freshly
generated token (rand_token, a clock-derived 16-bit value, is passed in as
`token`), send one datagram and return Ok. The second component lists the
datagrams sent. -/
def send_downlink (tracker : Option Addr) (token : Nat) (t : Txpk) :
    Except String Unit × List (Addr × List Nat) :=
  match tracker with
  | none => (.error "no gateway address known (no PULL_DATA received yet)", [])
  | some a => (.ok (), [(a, pull_resp token (strBytes (pullRespJson t)))])

/-- Value of a hex digit character, as `char::to_digit(16)`. -/
def hexDigitVal (c : Char) : Option Nat :=
  if '0' ≤ c ∧ c ≤ '9' then some (c.toNat - 48)
  else if 'a' ≤ c ∧ c ≤ 'f' then some (c.toNat - 87)
  else if 'A' ≤ c ∧ c ≤ 'F' then some (c.toNat - 55)
  else none

/-- Digit-accumulation loop of `u32::from_str_radix(s, 16)`: checked
multiply-and-add, failing on a non-digit or on overflow past 2^32. -/
def parseHexDigits : List Char → Nat → Option Nat
  | [], acc => some acc
  | c :: r, acc =>
    match hexDigitVal c with
    | none => none
    | some d =>
      if acc * 16 + d < 2 ^ 32 then parseHexDigits r (acc * 16 + d) else none

/-- `u32::from_str_radix(s, 16)` (used at src/main.rs line 244): optional
leading plus sign, at least one hex digit, value below 2^32. -/
def from_str_radix16_u32 (s : String) : Option Nat :=
  let cs :=
    match s.data with
    | '+' :: r => r
    | cs => cs
  if cs.isEmpty then none else parseHexDigits cs 0

/-- Pair loop of `hex::decode`: even length, two hex digits per byte. -/
def hexDecodePairs : List Char → Option (List Nat)
  | [] => some []
  | c1 :: c2 :: r => do
    let hi ← hexDigitVal c1
    let lo ← hexDigitVal c2
    let tl ← hexDecodePairs r
    some ((hi * 16 + lo) :: tl)
  | [_] => none

/-- `hex::decode` (used at src/main.rs line 254). -/
def hex_decode (s : String) : Option (List Nat) := hexDecodePairs s.data

/-- Pending downlink message (src/urbit/types.rs `OutboundMessage`); the
`srcAddr` field is modelled from the spec ("optional source devAddr hex"):
it is missing from the snapshot's types.rs although src/main.rs reads
`msg.src_addr` as a string, so absence is encoded as the empty string. -/
structure OutboundMessage where
  id : Nat
  destShip : String
  destAddr : String
  payload : String
  queuedAt : String
  srcAddr : String
deriving DecidableEq, Repr

/-- devAddr hex string chosen for the frame header (src/main.rs line 243):
the sender's address when non-empty, else the destination address. -/
def chooseAddr (m : OutboundMessage) : String :=
  if !m.srcAddr.isEmpty then m.srcAddr else m.destAddr

/-- Per-message outcome of the outbox poller: a tx-fail poke with no frame
sent, or a dispatched frame (followed by sendDownlink and the tx-ack/tx-fail
poke for its result). -/
inductive OutboundOutcome
  | txFail (msgId : Nat)
  | dispatch (msgId : Nat) (devAddr : Nat) (frame : List Nat)
deriving DecidableEq, Repr

/-- One message of the loop body of run_outbound_task (src/main.rs lines
234-301): parse the chosen devAddr as 32-bit hex and the payload as hex
(each failure pokes tx-fail and leaves fcnt untouched); otherwise build the
unconfirmed-down frame with the current fcnt and fPort 1, and advance fcnt
by wrapping_add(1). -/
def processOutboundMsg (fcnt : Nat) (m : OutboundMessage) : Nat × OutboundOutcome :=
  match from_str_radix16_u32 (chooseAddr m) with
  | none => (fcnt, .txFail m.id)
  | some devAddr =>
    match hex_decode m.payload with
    | none => (fcnt, .txFail m.id)
    | some payloadBytes =>
      ((fcnt + 1) % 65536,
        .dispatch m.id devAddr (FrameBuilder.new_downlink devAddr fcnt 1 payloadBytes).build)

/-- The poller's serial scan over one outbox tick (src/main.rs `for msg in
&messages`). -/
def processOutbox (fcnt : Nat) : List OutboundMessage → Nat × List OutboundOutcome
  | [] => (fcnt, [])
  | m :: rest =>
    let step := processOutboundMsg fcnt m
    let tail := processOutbox step.1 rest
    (tail.1, step.2 :: tail.2)

/-- Initial frame counter of run_outbound_task (src/main.rs line 186:
`let mut fcnt: u16 = 0;`). -/
def outboundInitFcnt : Nat := 0

/-- A message for which a frame is built (both hex parses succeed). -/
def frameBuilt (m : OutboundMessage) : Bool :=
  (from_str_radix16_u32 (chooseAddr m)).isSome && (hex_decode m.payload).isSome

/-- Endpoint of the gateway pair (src/bin/gateway_pair.rs): gateway A or B;
also names the socket an effect is sent from. -/
inductive Side
  | A
  | B
deriving DecidableEq, Repr

/-- The paired endpoint. -/
def Side.other : Side → Side
  | .A => .B
  | .B => .A

/-- GATEWAY_A_EUI / GATEWAY_B_EUI (src/bin/gateway_pair.rs lines 48-49). -/
def gatewayEui : Side → List Nat
  | .A => [0xAA, 0, 0, 0, 0, 0, 0, 0x01]
  | .B => [0xBB, 0, 0, 0, 0, 0, 0, 0x02]

/-- Shared mutable state of the pair simulator: each side's last known
bridge address (GatewayState.bridge_addr) and the shared AtomicU16 token
counter. -/
structure PairState where
  aBridge : Option Addr
  bBridge : Option Addr
  counter : Nat
deriving DecidableEq, Repr

/-- Bridge address tracked for one side. -/
def PairState.bridgeOf (st : PairState) : Side → Option Addr
  | .A => st.aBridge
  | .B => st.bBridge

/-- Record a side's bridge address. -/
def PairState.setBridge (st : PairState) : Side → Addr → PairState
  | .A, a => { st with aBridge := some a }
  | .B, a => { st with bBridge := some a }

/-- A datagram sent by the pair simulator: from which side's socket, to which
address, with which bytes. -/
structure SendEff where
  sock : Side
  dest : Addr
  bytes : List Nat
deriving DecidableEq, Repr

/-- build_push_ack (src/bin/gateway_pair.rs lines 392-399). -/
def build_push_ack (token : Nat) : List Nat :=
  [2, token % 65536 / 256, token % 256, 1]

/-- build_pull_ack (src/bin/gateway_pair.rs lines 401-408). -/
def build_pull_ack (token : Nat) : List Nat :=
  [2, token % 65536 / 256, token % 256, 4]

/-- build_push_data (src/bin/gateway_pair.rs lines 410-419). -/
def build_push_data (token : Nat) (eui : List Nat) (jsonPayload : List Nat) : List Nat :=
  2 :: token % 65536 / 256 :: token % 256 :: 0 :: (eui ++ jsonPayload)

/-- build_pull_data (src/bin/gateway_pair.rs lines 421-429). -/
def build_pull_data (token : Nat) (eui : List Nat) : List Nat :=
  2 :: token % 65536 / 256 :: token % 256 :: 2 :: eui

/-- build_tx_ack (src/bin/gateway_pair.rs lines 431-439). -/
def build_tx_ack (token : Nat) (eui : List Nat) : List Nat :=
  2 :: token % 65536 / 256 :: token % 256 :: 5 :: eui

/-- One iteration of gateway_recv_loop (src/bin/gateway_pair.rs lines
159-326) for side `side`, on a datagram `d` from `src`.  `parsePullResp`
stands for the external serde_json parse of a PULL_RESP body followed by
txpk_to_rxpk (some = a "txpk" member was found, giving the relayed rxpk
JSON bytes; none = no "txpk" member or a JSON parse failure).  The version
byte d[0] is read into `_version` and never used.  Returns the new shared
state and the datagrams sent, in order. -/
def gatewayStep (parsePullResp : List Nat → Option (List Nat)) (side : Side)
    (peerBridgeDefault : Addr) (st : PairState) (src : Addr) (d : List Nat) :
    PairState × List SendEff :=
  if d.length < 4 then (st, [])
  else
    let token := d.getD 1 0 % 256 * 256 + d.getD 2 0 % 256
    let ptype := d.getD 3 0 % 256
    if ptype = 0 then
      if d.length < 12 then (st, [])
      else
        let st1 := st.setBridge side src
        let relayToken := st1.counter % 65536
        let peerBridge := (st1.bridgeOf side.other).getD peerBridgeDefault
        ({ st1 with counter := (st1.counter % 65536 + 1) % 65536 },
          [⟨side, src, build_push_ack token⟩,
           ⟨side.other, peerBridge,
             build_push_data relayToken (gatewayEui side.other) (d.drop 12)⟩])
    else if ptype = 1 then (st, [])
    else if ptype = 4 then (st, [])
    else if ptype = 2 then
      if d.length < 12 then (st, [])
      else
        (st.setBridge side src, [⟨side, src, build_pull_ack token⟩])
    else if ptype = 3 then
      match parsePullResp (d.drop 4) with
      | some rxpkBytes =>
        let relayToken := st.counter % 65536
        let peerBridge := (st.bridgeOf side.other).getD peerBridgeDefault
        ({ st with counter := (st.counter % 65536 + 1) % 65536 },
          [⟨side.other, peerBridge,
             build_push_data relayToken (gatewayEui side.other) rxpkBytes⟩,
           ⟨side, src, build_tx_ack token (gatewayEui side)⟩])
      | none => (st, [⟨side, src, build_tx_ack token (gatewayEui side)⟩])
    else if ptype = 5 then (st, [])
    else (st, [])

/-- Channel action of an Airlock message (src/urbit/airlock.rs: the
"action" member of the PUT body). -/
inductive AirAction
  | poke
  | ack
  | delete
deriving DecidableEq, Repr

/-- One message PUT on a channel: the session (channel uid, abstracted to a
generation number since each `loraurbit-<uuid>` is fresh), the id used, the
action, and whether it was the poke retried by poke_inner after a
reconnect. -/
structure AirMsg where
  gen : Nat
  id : Nat
  act : AirAction
  retried : Bool
deriving DecidableEq, Repr

/-- Client state of AirlockClient (src/urbit/airlock.rs): channel uid
generation, next_id, connected. -/
structure AirState where
  gen : Nat
  nextId : Nat
  connected : Bool
deriving DecidableEq, Repr

/-- State right after AirlockClient::new + connect (channel_id fresh,
next_id = 1, connected). -/
def airInit : AirState := ⟨0, 1, true⟩

/-- reqwest `StatusCode::is_success` (2xx). -/
def isSuccess (status : Nat) : Bool := 200 ≤ status && status < 300

/-- The 401/403 auth-expiry test of AirlockClient::poke. -/
def isAuthFail (status : Nat) : Bool := status == 401 || status == 403

/-- AirlockClient::poke (src/urbit/airlock.rs lines 110-169) as a state
step.  `first` is the HTTP status of the first PUT; on 2xx the poke message
is followed by ack_events' best-effort ack (which consumes another id); on
401/403 the client reconnects (fresh uid, next_id reset to 1, re-login with
outcome `reconnectOk`) and, when the login succeeds, poke_inner re-PUTs the
SAME msg_id on the new channel without touching next_id; on any other status
the poke message was still sent and the error only surfaces. -/
def pokeStep (s : AirState) (first : Nat) (reconnectOk : Bool) : AirState × List AirMsg :=
  if ¬s.connected then (s, [])
  else
    let msgId := s.nextId
    if isSuccess first then
      (⟨s.gen, s.nextId + 2, true⟩,
        [⟨s.gen, msgId, .poke, false⟩, ⟨s.gen, msgId + 1, .ack, false⟩])
    else if isAuthFail first then
      if reconnectOk then
        (⟨s.gen + 1, 1, true⟩,
          [⟨s.gen, msgId, .poke, false⟩, ⟨s.gen + 1, msgId, .poke, true⟩])
      else
        (⟨s.gen + 1, 1, false⟩, [⟨s.gen, msgId, .poke, false⟩])
    else
      (⟨s.gen, s.nextId + 1, true⟩, [⟨s.gen, msgId, .poke, false⟩])

/-- AirlockClient::disconnect (src/urbit/airlock.rs lines 254-281): a
best-effort delete message consuming the next id. -/
def disconnectStep (s : AirState) : AirState × List AirMsg :=
  if ¬s.connected then (s, [])
  else (⟨s.gen, s.nextId + 1, false⟩, [⟨s.gen, s.nextId, .delete, false⟩])

/-- AirlockClient::connect (src/urbit/airlock.rs lines 51-82): on success
sets connected without touching next_id or the channel uid. -/
def connectStep (s : AirState) (ok : Bool) : AirState :=
  if ok then ⟨s.gen, s.nextId, true⟩ else s

/-- Driver inputs for a client run. -/
inductive AirInput
  | pokeCall (first : Nat) (reconnectOk : Bool)
  | disconnectCall
  | connectCall (ok : Bool)
deriving DecidableEq, Repr

/-- A client run: thread the state and collect the messages PUT. -/
def airRun (s : AirState) : List AirInput → AirState × List AirMsg
  | [] => (s, [])
  | i :: rest =>
    let step :=
      match i with
      | .pokeCall first reconnectOk => pokeStep s first reconnectOk
      | .disconnectCall => disconnectStep s
      | .connectCall ok => (connectStep s ok, [])
    let tail := airRun step.1 rest
    (tail.1, step.2 ++ tail.2)

/-- Two messages collide when they share a channel uid and an id. -/
def noReuse (m m' : AirMsg) : Prop :=
  m.retried = false → m'.retried = false → m.gen = m'.gen → m.id ≠ m'.id

instance : ∀ m m' : AirMsg, Decidable (noReuse m m') := by
  intro m m'
  unfold noReuse
  infer_instance

/-- The state-and-messages result of one driver input. -/
def airStepOf (s : AirState) : AirInput → AirState × List AirMsg
  | .pokeCall first reconnectOk => pokeStep s first reconnectOk
  | .disconnectCall => disconnectStep s
  | .connectCall ok => (connectStep s ok, [])

theorem natToLe_length (w n : Nat) : (natToLe w n).length = w := by
  induction w generalizing n with
  | zero => rfl
  | succ w ih => simp [natToLe, ih]

theorem leNat_natToLe (w n : Nat) : leNat (natToLe w n) = n % 256 ^ w := by
  induction w generalizing n with
  | zero => simp [natToLe, leNat, Nat.mod_one]
  | succ w ih =>
    simp only [natToLe, leNat, ih, Nat.mod_mod_of_dvd n dvd_rfl]
    rw [pow_succ', Nat.mod_mul]

theorem getD_eq_headD_drop {α : Type} (l : List α) (i : Nat) (d : α) :
    l.getD i d = (l.drop i).headD d := by
  induction l generalizing i with
  | nil => cases i <;> rfl
  | cons a l ih => cases i with
    | zero => rfl
    | succ i => simp [List.getD_cons_succ, ih i]

theorem natToLe_four (n : Nat) :
    natToLe 4 n = [n % 256, n / 256 % 256, n / 256 / 256 % 256, n / 256 / 256 / 256 % 256] := rfl

theorem decode_data_frame_build (mt : MType) (m devAddr fcnt q : Nat) (payload : List Nat)
    (hda : devAddr < 2 ^ 32) (hfc : fcnt < 2 ^ 16) (_hq : q < 256) :
    decode_data_frame mt
      (m :: (natToLe 4 devAddr ++ [0] ++ natToLe 2 fcnt ++ (q :: payload) ++ [0, 0, 0, 0])) =
      .ok (.data mt devAddr ⟨false, false, false, false, 0⟩ fcnt [] (some q) payload 0) := by
  set A := natToLe 4 devAddr with hAdef
  set C := natToLe 2 fcnt with hCdef
  have hA : A.length = 4 := natToLe_length 4 devAddr
  have hC : C.length = 2 := natToLe_length 2 fcnt
  set n := payload.length with hndef
  set L := m :: (A ++ [0] ++ C ++ (q :: payload) ++ [0, 0, 0, 0]) with hLdef
  have hd1 : L.drop 1 = A ++ ([0] ++ (C ++ ((q :: payload) ++ [0, 0, 0, 0]))) := by
    simp [hLdef, List.append_assoc]
  have hd5 : L.drop 5 = [0] ++ (C ++ ((q :: payload) ++ [0, 0, 0, 0])) := by
    have : L.drop 5 = (L.drop 1).drop 4 := by rw [List.drop_drop]
    rw [this, hd1, List.drop_left' hA]
  have hd6 : L.drop 6 = C ++ ((q :: payload) ++ [0, 0, 0, 0]) := by
    have : L.drop 6 = (L.drop 5).drop 1 := by rw [List.drop_drop]
    rw [this, hd5]
    rfl
  have hd8 : L.drop 8 = (q :: payload) ++ [0, 0, 0, 0] := by
    have : L.drop 8 = (L.drop 6).drop 2 := by rw [List.drop_drop]
    rw [this, hd6, List.drop_left' hC]
  have hd9 : L.drop 9 = payload ++ [0, 0, 0, 0] := by
    have : L.drop 9 = (L.drop 8).drop 1 := by rw [List.drop_drop]
    rw [this, hd8]
    rfl
  have hd9n : L.drop (9 + n) = [0, 0, 0, 0] := by
    have : L.drop (9 + n) = (L.drop 9).drop n := by rw [List.drop_drop]
    rw [this, hd9, List.drop_left' hndef.symm]
  have hlen : L.length = 13 + n := by
    simp [hLdef, hA, hC]
    omega
  have htake4 : (L.drop 1).take 4 = A := by rw [hd1]; exact List.take_left' hA
  have hgetD5 : L.getD 5 0 = 0 := by rw [getD_eq_headD_drop, hd5]; rfl
  have htake2 : (L.drop 6).take 2 = C := by rw [hd6]; exact List.take_left' hC
  have hgetD8 : L.getD 8 0 = q := by rw [getD_eq_headD_drop, hd8]; rfl
  have htaken : (L.drop 9).take n = payload := by rw [hd9]; exact List.take_left' hndef.symm
  have hmic : leNat (L.drop (9 + n)) = 0 := by rw [hd9n]; rfl
  have hdev : leNat ((L.drop 1).take 4) = devAddr := by
    rw [htake4, hAdef, leNat_natToLe]
    exact Nat.mod_eq_of_lt (by norm_num at hda ⊢; omega)
  have hfcv : leNat ((L.drop 6).take 2) = fcnt := by
    rw [htake2, hCdef, leNat_natToLe]
    exact Nat.mod_eq_of_lt (by norm_num at hfc ⊢; omega)
  simp only [decode_data_frame, hgetD5, hdev, hfcv, hlen]
  norm_num
  rw [if_neg (by omega : ¬13 + n < 12), if_neg (by omega : ¬13 + n - 4 < 8),
    if_pos (by omega : 8 < 13 + n - 4), (by omega : 13 + n - 4 - 9 = n),
    (by omega : 13 + n - 4 = 9 + n), htaken, hmic]
  have hg : L[8]?.getD 0 = q := by rw [← List.getD_eq_getElem?_getD]; exact hgetD8
  rw [hg, if_pos (by omega : 8 < 9 + n)]

theorem build_cons (b : FrameBuilder) (p : Nat) (ps : List Nat) (hpl : b.payload = p :: ps) :
    b.build = mhdrOf b.mtype ::
      (natToLe 4 b.devAddr ++ [0] ++ natToLe 2 b.fcnt ++
        (b.fPort % 256 :: (p :: ps)) ++ [0, 0, 0, 0]) := by
  rw [FrameBuilder.build, hpl]
  rfl

theorem decode_phy_payload_cons (m : Nat) (rest : List Nat) :
    decode_phy_payload (m :: rest) =
      (match mtypeOfByte m with
      | .joinRequest => decode_join_request (m :: rest)
      | .joinAccept => .ok (.joinAccept rest)
      | .unconfirmedDataUp => decode_data_frame .unconfirmedDataUp (m :: rest)
      | .unconfirmedDataDown => decode_data_frame .unconfirmedDataDown (m :: rest)
      | .confirmedDataUp => decode_data_frame .confirmedDataUp (m :: rest)
      | .confirmedDataDown => decode_data_frame .confirmedDataDown (m :: rest)
      | .proprietary => .ok (.proprietary rest)
      | .rejoinRequest => .error .rejoinUnsupported) := rfl

/-- C1 (amended form): for data frames with a NON-empty payload of at most
242 bytes, fPort in 1..223, 16-bit fcnt, 32-bit devAddr, decoding the bytes
built by FrameBuilder::build recovers mtype, devAddr, fcnt, fPort and
frmPayload, with zero fOpts/FCtrl and mic = 0. -/
theorem build_decode_roundtrip (mt : MType)
    (hmt : mt = MType.unconfirmedDataDown ∨ mt = MType.confirmedDataDown ∨
      mt = MType.unconfirmedDataUp ∨ mt = MType.confirmedDataUp)
    (devAddr fcnt fPort : Nat) (payload : List Nat)
    (hda : devAddr < 2 ^ 32) (hfc : fcnt < 2 ^ 16)
    (hp1 : 1 ≤ fPort) (hp2 : fPort ≤ 223)
    (hn1 : 1 ≤ payload.length) (hn2 : payload.length ≤ 242) :
    decode_phy_payload (FrameBuilder.build ⟨mt, devAddr, fcnt, fPort, payload⟩) =
      .ok (.data mt devAddr ⟨false, false, false, false, 0⟩ fcnt [] (some fPort) payload 0) := by
  obtain ⟨p, ps, hpl⟩ : ∃ p ps, payload = p :: ps := by
    cases payload with
    | nil => simp at hn1
    | cons p ps => exact ⟨p, ps, rfl⟩
  subst hpl
  have hq : fPort % 256 = fPort := Nat.mod_eq_of_lt (by omega)
  have hbuild := build_cons ⟨mt, devAddr, fcnt, fPort, p :: ps⟩ p ps rfl
  have hmain := decode_data_frame_build mt (mhdrOf mt) devAddr fcnt (fPort % 256) (p :: ps) hda hfc
  rw [hbuild, decode_phy_payload_cons]
  rcases hmt with h | h | h | h <;> subst h <;>
    simp only [show mtypeOfByte (mhdrOf .unconfirmedDataDown) = .unconfirmedDataDown from rfl,
      show mtypeOfByte (mhdrOf .confirmedDataDown) = .confirmedDataDown from rfl,
      show mtypeOfByte (mhdrOf .unconfirmedDataUp) = .unconfirmedDataUp from rfl,
      show mtypeOfByte (mhdrOf .confirmedDataUp) = .confirmedDataUp from rfl] <;>
    rw [hmain (by omega), hq]

/-- Witness for the C1 round-trip theorem at the spec's scenario-4 input
(unconfirmed downlink, devAddr 0x01AB5678, fcnt 42, fPort 1, payload
"Hello"). -/
theorem build_decode_roundtrip_witness :
    decode_phy_payload (FrameBuilder.build
        ⟨.unconfirmedDataDown, 0x01AB5678, 42, 1, [0x48, 0x65, 0x6C, 0x6C, 0x6F]⟩) =
      .ok (.data .unconfirmedDataDown 0x01AB5678 ⟨false, false, false, false, 0⟩ 42 []
        (some 1) [0x48, 0x65, 0x6C, 0x6C, 0x6F] 0) :=
  build_decode_roundtrip .unconfirmedDataDown (Or.inl rfl) 0x01AB5678 42 1
    [0x48, 0x65, 0x6C, 0x6C, 0x6F] (by norm_num) (by norm_num) (by norm_num) (by norm_num)
    (by norm_num) (by norm_num)

/-- Counterexample to C1 as frozen: with an EMPTY frmPayload (length 0 ≤ 242)
and fPort 1, the encoder omits the fPort byte, so decoding the built bytes
yields fPort = none rather than the input fPort. -/
theorem build_decode_roundtrip_counterexample :
    decode_phy_payload (FrameBuilder.build ⟨.unconfirmedDataDown, 0x01AB5678, 42, 1, []⟩) =
      .ok (.data .unconfirmedDataDown 0x01AB5678 ⟨false, false, false, false, 0⟩ 42 [] none [] 0) ∧
    decode_phy_payload (FrameBuilder.build ⟨.unconfirmedDataDown, 0x01AB5678, 42, 1, []⟩) ≠
      .ok (.data .unconfirmedDataDown 0x01AB5678 ⟨false, false, false, false, 0⟩ 42 []
        (some 1) [] 0) := by
  constructor
  · decide
  · decide

theorem parse_token_lt (d : List Nat) (pkt : GwmpPacket)
    (h : GwmpPacket.parse d = .ok pkt) : pkt.token < 65536 := by
  simp only [GwmpPacket.parse] at h
  repeat' split at h
  any_goals exact Except.noConfusion h
  all_goals injection h with h
  all_goals subst h
  all_goals simp only [GwmpPacket.token]
  all_goals omega

/-- C2: for every datagram that parses as PUSH_DATA with token t, the first
effect of the handler is the PUSH_ACK datagram [0x02, hi t, lo t, 0x01] sent
to the source, for EVERY outcome of the JSON body parse (including failure),
so base64 or LoRaWAN decode failures of rxpks cannot suppress it; the ACK is
exactly 4 bytes. -/
theorem push_data_ack_first (d : List Nat) (t : Nat) (eui body : List Nat)
    (parsed : Option PushDataPayload) (src : Addr)
    (h : GwmpPacket.parse d = .ok (.pushData t eui body)) :
    (handle_packet (.pushData t eui body) parsed src).head? =
      some (.sendTo src (push_ack t)) ∧
    push_ack t = [2, t / 256, t % 256, 1] ∧
    (push_ack t).length = 4 := by
  have ht : t < 65536 := parse_token_lt d _ h
  exact ⟨rfl, by simp [push_ack, Nat.mod_eq_of_lt ht], rfl⟩

/-- Witness for C2 at the spec's scenario-1 datagram (token 0x002A, body
"\x7b\x7d"), with a source address 7 and an unparseable JSON body. -/
theorem push_data_ack_first_witness :
    GwmpPacket.parse [2, 0, 42, 0, 0xAA, 0xBB, 0xCC, 0xDD, 0xEE, 0xFF, 0x00, 0x11, 0x7B, 0x7D] =
      .ok (.pushData 42 [0xAA, 0xBB, 0xCC, 0xDD, 0xEE, 0xFF, 0x00, 0x11] [0x7B, 0x7D]) ∧
    ((handle_packet
        (.pushData 42 [0xAA, 0xBB, 0xCC, 0xDD, 0xEE, 0xFF, 0x00, 0x11] [0x7B, 0x7D]) none 7).head? =
      some (.sendTo 7 (push_ack 42)) ∧
    push_ack 42 = [2, 42 / 256, 42 % 256, 1] ∧
    (push_ack 42).length = 4) :=
  ⟨by decide,
    push_data_ack_first [2, 0, 42, 0, 0xAA, 0xBB, 0xCC, 0xDD, 0xEE, 0xFF, 0x00, 0x11, 0x7B, 0x7D]
      42 [0xAA, 0xBB, 0xCC, 0xDD, 0xEE, 0xFF, 0x00, 0x11] [0x7B, 0x7D] none 7 (by decide)⟩

/-- C3: evaluation of GwmpPacket::parse at well-formed PUSH_ACK, PULL_ACK and
PULL_RESP datagrams: all three hit the `_ => Err("Unexpected packet type for
parsing")` arm, although handle_packet (src/udp/mod.rs lines 319-334) carries
log-and-ignore match arms for exactly these variants. -/
theorem parse_rejects_ack_kinds :
    GwmpPacket.parse [2, 0, 42, 1] = .error .unexpectedType ∧
    GwmpPacket.parse [2, 0, 42, 4] = .error .unexpectedType ∧
    GwmpPacket.parse [2, 0, 42, 3, 0x7B, 0x7D] = .error .unexpectedType := by
  refine ⟨by decide, by decide, by decide⟩

theorem elim_getLast?_cons (a : Addr) (l : List Addr) (init : Option Addr) :
    (a :: l).getLast?.elim init some = l.getLast?.elim (some a) some := by
  cases l with
  | nil => rfl
  | cons b t =>
    rw [List.getLast?_cons_cons]
    obtain ⟨x, hx⟩ :=
      Option.isSome_iff_exists.mp (List.getLast?_isSome.mpr (by simp) :
        (b :: t).getLast?.isSome)
    rw [hx]
    rfl

/-- C4 (amended): the gateway tracker is updated only by PULL_DATA datagrams;
after any sequence of handled packets it holds the source address of the last
PULL_DATA (newest wins), or its initial value if none arrived, and processing
a PUSH_DATA leaves it unchanged. -/
theorem tracker_last_pull_wins (init : Option Addr) (seq : List (GwmpPacket × Addr)) :
    processSeq init seq = (pullDataSources seq).getLast?.elim init some ∧
    (∀ t eui body src old, trackerAfter (.pushData t eui body) src old = old) := by
  constructor
  · induction seq generalizing init with
    | nil => rfl
    | cons e rest ih =>
      obtain ⟨pkt, src⟩ := e
      cases pkt with
      | pushData t eui body =>
        simpa [processSeq, trackerAfter, pullDataSources] using ih init
      | pullData t eui =>
        simp only [processSeq, trackerAfter, pullDataSources, List.filterMap_cons]
        rw [show (pullDataSources rest : List Addr) =
          rest.filterMap (fun e => match e.1 with
            | .pullData _ _ => some e.2
            | _ => none) from rfl] at ih
        rw [elim_getLast?_cons]
        exact ih (some src)
      | txAck t eui j =>
        simpa [processSeq, trackerAfter, pullDataSources] using ih init
  · intro t eui body src old
    rfl

/-- Counterexample to C4 as frozen: after the server processes a PUSH_DATA
datagram from source address 7 starting from the empty tracker, the tracker
still holds nothing (the PUSH_DATA arm of handle_packet never calls
GatewayTracker::set). -/
theorem tracker_push_data_counterexample :
    processSeq none
      [(.pushData 42 [0xAA, 0xBB, 0xCC, 0xDD, 0xEE, 0xFF, 0x00, 0x11] [0x7B, 0x7D], 7)] = none ∧
    processSeq none
      [(.pushData 42 [0xAA, 0xBB, 0xCC, 0xDD, 0xEE, 0xFF, 0x00, 0x11] [0x7B, 0x7D], 7)] ≠
      some 7 := by
  refine ⟨by decide, by decide⟩

/-- C5: send_downlink fails with the no-gateway-address error and transmits
nothing whenever the tracker holds no address; whenever it holds an address
(for example right after any PULL_DATA updated the tracker), it sends to that
address exactly one datagram made of the GWMP PULL_RESP header carrying the
generated 16-bit token followed by the JSON txpk envelope, and returns
success. -/
theorem send_downlink_spec (token : Nat) (t : Txpk) :
    (send_downlink none token t).1 =
      .error "no gateway address known (no PULL_DATA received yet)" ∧
    (send_downlink none token t).2 = [] ∧
    (∀ a : Addr, (send_downlink (some a) token t).1 = .ok () ∧
      (send_downlink (some a) token t).2 =
        [(a, [2, token % 65536 / 256, token % 256, 3] ++ strBytes (pullRespJson t))]) ∧
    (∀ tk eui src old,
      (send_downlink (trackerAfter (.pullData tk eui) src old) token t).1 = .ok ()) := by
  exact ⟨rfl, rfl, fun a => ⟨rfl, rfl⟩, fun tk eui src old => rfl⟩

theorem processOutboundMsg_fst (fcnt : Nat) (m : OutboundMessage) :
    (processOutboundMsg fcnt m).1 = if frameBuilt m then (fcnt + 1) % 65536 else fcnt := by
  unfold processOutboundMsg frameBuilt
  cases from_str_radix16_u32 (chooseAddr m) <;> cases hex_decode m.payload <;> simp

/-- C6: the poller's frame counter starts at 0 and, over any outbox scan,
advances by exactly one per message for which a frame is built (and
sendDownlink is then invoked), wrapping modulo 2^16; messages rejected
before frame construction leave it unchanged. -/
theorem outbound_fcnt_advances (msgs : List OutboundMessage) (fcnt : Nat)
    (h : fcnt < 65536) :
    outboundInitFcnt = 0 ∧
    (processOutbox fcnt msgs).1 = (fcnt + msgs.countP (fun m => frameBuilt m)) % 65536 ∧
    (∀ m, (frameBuilt m → (processOutboundMsg fcnt m).1 = (fcnt + 1) % 65536) ∧
      (¬frameBuilt m → (processOutboundMsg fcnt m).1 = fcnt)) := by
  refine ⟨rfl, ?_, ?_⟩
  · induction msgs generalizing fcnt with
    | nil => simp [processOutbox, Nat.mod_eq_of_lt h]
    | cons m rest ih =>
      simp only [processOutbox, List.countP_cons, processOutboundMsg_fst]
      cases hfb : frameBuilt m
      · norm_num
        rw [ih fcnt h]
      · norm_num
        rw [ih ((fcnt + 1) % 65536) (Nat.mod_lt _ (by norm_num))]
        omega
  · intro m
    constructor
    · intro hb
      rw [processOutboundMsg_fst, if_pos hb]
    · intro hb
      rw [processOutboundMsg_fst, if_neg hb]

/-- Witness for C6: from fcnt 0, a scan over one dispatchable message and one
message with a malformed devAddr advances the counter to exactly 1. -/
theorem outbound_fcnt_advances_witness :
    (processOutbox 0
      [⟨7, "~bus", "DEADBEEF", "01020304", "", ""⟩,
       ⟨8, "~bus", "NOTHEX", "01020304", "", ""⟩]).1 =
      (0 + ([⟨7, "~bus", "DEADBEEF", "01020304", "", ""⟩,
        ⟨8, "~bus", "NOTHEX", "01020304", "", ""⟩] :
          List OutboundMessage).countP (fun m => frameBuilt m)) % 65536 :=
  (outbound_fcnt_advances
    [⟨7, "~bus", "DEADBEEF", "01020304", "", ""⟩,
     ⟨8, "~bus", "NOTHEX", "01020304", "", ""⟩] 0 (by norm_num)).2.1

theorem parseHexDigits_lt (cs : List Char) (acc v : Nat) (hacc : acc < 2 ^ 32)
    (h : parseHexDigits cs acc = some v) : v < 2 ^ 32 := by
  induction cs generalizing acc with
  | nil =>
    simp only [parseHexDigits, Option.some.injEq] at h
    omega
  | cons c r ih =>
    simp only [parseHexDigits] at h
    rcases hd : hexDigitVal c with _ | d
    · rw [hd] at h
      cases h
    · rw [hd] at h
      dsimp only at h
      by_cases hlt : acc * 16 + d < 2 ^ 32
      · rw [if_pos hlt] at h
        exact ih _ (by omega) h
      · rw [if_neg hlt] at h
        cases h

theorem from_str_radix16_u32_lt (s : String) (v : Nat)
    (h : from_str_radix16_u32 s = some v) : v < 2 ^ 32 := by
  simp only [from_str_radix16_u32] at h
  split at h
  · cases h
  · exact parseHexDigits_lt _ 0 v (by norm_num) h

theorem build_header_devAddr (b : FrameBuilder) :
    (b.build.drop 1).take 4 = natToLe 4 b.devAddr := by
  have h : b.build.drop 1 = natToLe 4 b.devAddr ++
      ([0] ++ (natToLe 2 b.fcnt ++
        ((if b.payload.isEmpty then [] else b.fPort % 256 :: b.payload) ++ [0, 0, 0, 0]))) := rfl
  rw [h]
  exact List.take_left' (natToLe_length 4 b.devAddr)

/-- C7: for every outbox message, the devAddr placed in the encoded frame
header is the optional source devAddr when present (non-empty), otherwise the
destination devAddr; the chosen string is parsed as 32-bit hex, and a parse
failure yields a tx-fail outcome for the message with no frame built. On
success, bytes 1..5 of the built frame are exactly the little-endian chosen
address. -/
theorem outbound_devaddr_choice (fcnt : Nat) (m : OutboundMessage) :
    chooseAddr m = (if m.srcAddr.isEmpty then m.destAddr else m.srcAddr) ∧
    (from_str_radix16_u32 (chooseAddr m) = none →
      processOutboundMsg fcnt m = (fcnt, .txFail m.id)) ∧
    (∀ a, from_str_radix16_u32 (chooseAddr m) = some a →
      (hex_decode m.payload = none → processOutboundMsg fcnt m = (fcnt, .txFail m.id)) ∧
      (∀ bytes, hex_decode m.payload = some bytes →
        processOutboundMsg fcnt m =
          ((fcnt + 1) % 65536,
            .dispatch m.id a (FrameBuilder.new_downlink a fcnt 1 bytes).build) ∧
        a < 2 ^ 32 ∧
        ((FrameBuilder.new_downlink a fcnt 1 bytes).build.drop 1).take 4 = natToLe 4 a)) := by
  refine ⟨?_, ?_, ?_⟩
  · by_cases he : m.srcAddr.isEmpty <;> simp [chooseAddr, he]
  · intro h
    unfold processOutboundMsg
    rw [h]
  · intro a ha
    refine ⟨?_, ?_⟩
    · intro hn
      unfold processOutboundMsg
      rw [ha, hn]
    · intro bytes hb
      refine ⟨?_, from_str_radix16_u32_lt _ a ha, build_header_devAddr _⟩
      unfold processOutboundMsg
      rw [ha, hb]

/-- Witness for C7: a message whose source devAddr "01AB5678" is present and
non-empty is dispatched with that address (not the destination "DEADBEEF") in
the frame header. -/
theorem outbound_devaddr_choice_witness :
    processOutboundMsg 5 ⟨7, "~bus", "DEADBEEF", "01020304", "", "01AB5678"⟩ =
      ((5 + 1) % 65536, .dispatch 7 0x01AB5678
        (FrameBuilder.new_downlink 0x01AB5678 5 1 [1, 2, 3, 4]).build) ∧
    0x01AB5678 < 2 ^ 32 ∧
    ((FrameBuilder.new_downlink 0x01AB5678 5 1 [1, 2, 3, 4]).build.drop 1).take 4 =
      natToLe 4 0x01AB5678 :=
  ((outbound_devaddr_choice 5 ⟨7, "~bus", "DEADBEEF", "01020304", "", "01AB5678"⟩).2.2
    0x01AB5678 (by decide)).2 [1, 2, 3, 4] (by decide)

theorem build_push_data_body (t : Nat) (eui body : List Nat) (h : eui.length = 8) :
    (build_push_data t eui body).drop 12 = body := by
  have h0 : (build_push_data t eui body).drop 12 = (eui ++ body).drop 8 := rfl
  rw [h0, List.drop_left' h]

theorem build_push_data_eui (t : Nat) (eui body : List Nat) (h : eui.length = 8) :
    ((build_push_data t eui body).drop 4).take 8 = eui := by
  have h0 : (build_push_data t eui body).drop 4 = eui ++ body := rfl
  rw [h0, List.take_left' h]

/-- C8: in pair mode, for every PUSH_DATA datagram (kind byte 0x00, length at
least 12) received by endpoint A from its upstream, the step sends exactly
one datagram from B's socket — to B's tracked upstream address, or B's
configured default when B's upstream is not yet learned — and that datagram
is a PUSH_DATA whose 8-byte gateway identifier is B's configured EUI, whose
token is the fresh shared-counter value (the counter advances by one mod
2^16), and whose JSON body equals the received datagram's JSON body byte for
byte (both are the bytes after offset 12). -/
theorem pair_push_data_relay (pp : List Nat → Option (List Nat))
    (dflt : Addr) (st : PairState) (src : Addr) (d : List Nat)
    (h12 : 12 ≤ d.length) (hk : d.getD 3 0 % 256 = 0) :
    (gatewayStep pp .A dflt st src d).2 =
      [⟨.A, src, build_push_ack (d.getD 1 0 % 256 * 256 + d.getD 2 0 % 256)⟩,
       ⟨.B, (st.bBridge).getD dflt,
         build_push_data (st.counter % 65536) (gatewayEui .B) (d.drop 12)⟩] ∧
    ((gatewayStep pp .A dflt st src d).2.filter (fun e => e.sock == Side.B)) =
      [⟨.B, (st.bBridge).getD dflt,
        build_push_data (st.counter % 65536) (gatewayEui .B) (d.drop 12)⟩] ∧
    (build_push_data (st.counter % 65536) (gatewayEui .B) (d.drop 12)).drop 12 = d.drop 12 ∧
    ((build_push_data (st.counter % 65536) (gatewayEui .B) (d.drop 12)).drop 4).take 8 =
      gatewayEui .B ∧
    (gatewayStep pp .A dflt st src d).1.counter = (st.counter % 65536 + 1) % 65536 := by
  have h4 : ¬d.length < 4 := by omega
  have hlt : ¬d.length < 12 := by omega
  rw [List.getD_eq_getElem?_getD] at hk
  refine ⟨?_, ?_, build_push_data_body _ _ _ rfl, build_push_data_eui _ _ _ rfl, ?_⟩
  · simp [gatewayStep, hk, h4, hlt, Side.other, PairState.setBridge, PairState.bridgeOf]
  · simp [gatewayStep, hk, h4, hlt, Side.other, PairState.setBridge, PairState.bridgeOf,
      List.filter]
  · simp [gatewayStep, hk, h4, hlt, Side.other, PairState.setBridge, PairState.bridgeOf]

/-- Witness for C8: a concrete PUSH_DATA datagram with version byte 0x02,
token 0x002A, gateway id AA..11 and body "\x7b\x7d", starting with B's
bridge unknown so the relay goes to the default address 9. -/
theorem pair_push_data_relay_witness :
    (gatewayStep (fun _ => none) .A 9 ⟨none, none, 0x1000⟩ 7
        [2, 0, 42, 0, 0xAA, 0xBB, 0xCC, 0xDD, 0xEE, 0xFF, 0x00, 0x11, 0x7B, 0x7D]).2 =
      [⟨.A, 7, build_push_ack 42⟩,
       ⟨.B, 9, build_push_data 0x1000 (gatewayEui .B) [0x7B, 0x7D]⟩] :=
  ((pair_push_data_relay (fun _ => none) 9 ⟨none, none, 0x1000⟩ 7
    [2, 0, 42, 0, 0xAA, 0xBB, 0xCC, 0xDD, 0xEE, 0xFF, 0x00, 0x11, 0x7B, 0x7D]
    (by norm_num) (by norm_num)).1).trans (by norm_num)

/-- C10: the pair relay endpoint never inspects the protocol-version byte:
replacing the first byte of any datagram changes nothing in the step's
behaviour, and every datagram of length at least 12 whose kind byte is
PUSH_DATA is ACKed and relayed (two sends) even when its first byte differs
from 0x02. -/
theorem pair_ignores_version_byte (pp : List Nat → Option (List Nat)) (side : Side)
    (dflt : Addr) (st : PairState) (src : Addr) (v : Nat) (rest : List Nat)
    (h12 : 12 ≤ (v :: rest).length) (hk : (v :: rest).getD 3 0 % 256 = 0) :
    (∀ pp0 side0 dflt0 st0 src0 (w w' : Nat) (r0 : List Nat),
      gatewayStep pp0 side0 dflt0 st0 src0 (w :: r0) =
        gatewayStep pp0 side0 dflt0 st0 src0 (w' :: r0)) ∧
    (gatewayStep pp side dflt st src (v :: rest)).2 =
      [⟨side, src, build_push_ack ((v :: rest).getD 1 0 % 256 * 256 + (v :: rest).getD 2 0 % 256)⟩,
       ⟨side.other, ((st.setBridge side src).bridgeOf side.other).getD dflt,
         build_push_data (st.counter % 65536) (gatewayEui side.other) ((v :: rest).drop 12)⟩] := by
  constructor
  · intro pp0 side0 dflt0 st0 src0 w w' r0
    simp only [gatewayStep, List.length_cons, List.getD_cons_succ, List.drop_succ_cons]
  · simp only [List.length_cons] at h12
    have h4 : ¬rest.length + 1 < 4 := by omega
    have hlt : ¬rest.length + 1 < 12 := by omega
    have hcnt : (st.setBridge side src).counter = st.counter := by
      cases side <;> rfl
    simp only [List.getD_cons_succ] at hk
    rw [List.getD_eq_getElem?_getD] at hk
    simp [gatewayStep, hk, h4, hlt, hcnt]

/-- Witness for C10: a PUSH_DATA datagram whose version byte is 0x7F (not
0x02) is still ACKed and relayed by endpoint B. -/
theorem pair_ignores_version_byte_witness :
    (gatewayStep (fun _ => none) .B 9 ⟨none, none, 0x1000⟩ 7
        (0x7F :: [0, 42, 0, 0xAA, 0xBB, 0xCC, 0xDD, 0xEE, 0xFF, 0x00, 0x11, 0x7B, 0x7D])).2 =
      [⟨.B, 7, build_push_ack 42⟩,
       ⟨.A, 9, build_push_data 0x1000 (gatewayEui .A) [0x7B, 0x7D]⟩] :=
  ((pair_ignores_version_byte (fun _ => none) .B 9 ⟨none, none, 0x1000⟩ 7 0x7F
    [0, 42, 0, 0xAA, 0xBB, 0xCC, 0xDD, 0xEE, 0xFF, 0x00, 0x11, 0x7B, 0x7D]
    (by norm_num) (by norm_num)).2).trans (by decide)

theorem airRun_cons (s : AirState) (i : AirInput) (rest : List AirInput) :
    airRun s (i :: rest) =
      ((airRun (airStepOf s i).1 rest).1,
        (airStepOf s i).2 ++ (airRun (airStepOf s i).1 rest).2) := by
  cases i <;> rfl

theorem airStep_spec (s : AirState) (i : AirInput) :
    s.gen ≤ (airStepOf s i).1.gen ∧
    (∀ m ∈ (airStepOf s i).2, s.gen ≤ m.gen ∧ m.gen ≤ (airStepOf s i).1.gen) ∧
    (∀ m ∈ (airStepOf s i).2, m.retried = false → m.gen = s.gen → s.nextId ≤ m.id) ∧
    (∀ m ∈ (airStepOf s i).2, m.retried = false → m.gen = (airStepOf s i).1.gen →
      m.id < (airStepOf s i).1.nextId) ∧
    (s.gen = (airStepOf s i).1.gen → s.nextId ≤ (airStepOf s i).1.nextId) ∧
    List.Pairwise noReuse (airStepOf s i).2 := by
  cases i with
  | pokeCall first reconnectOk =>
    by_cases hc : s.connected
    · simp only [airStepOf, pokeStep, hc, not_true, if_neg, if_false]
      by_cases hs : isSuccess first
      · simp [hs, noReuse]
      · by_cases ha : isAuthFail first
        · by_cases hr : reconnectOk
          · simp [hs, ha, hr, noReuse]
          · simp [hs, ha, hr, noReuse]
        · simp [hs, ha, noReuse]
    · simp [airStepOf, pokeStep, hc]
  | disconnectCall =>
    by_cases hc : s.connected
    · simp [airStepOf, disconnectStep, hc, noReuse]
    · simp [airStepOf, disconnectStep, hc]
  | connectCall ok =>
    by_cases ho : ok <;> simp [airStepOf, connectStep, ho]

theorem airRun_fresh (inputs : List AirInput) (s : AirState) :
    (∀ m ∈ (airRun s inputs).2, s.gen ≤ m.gen) ∧
    (∀ m ∈ (airRun s inputs).2, m.retried = false → m.gen = s.gen → s.nextId ≤ m.id) ∧
    List.Pairwise noReuse (airRun s inputs).2 := by
  induction inputs generalizing s with
  | nil =>
    refine ⟨?_, ?_, ?_⟩ <;> simp [airRun]
  | cons i rest ih =>
    obtain ⟨hstep_gen, hnew_gen, hnew_fresh, hnew_bound, hnext, hnew_pw⟩ := airStep_spec s i
    obtain ⟨ihg, ihf, ihp⟩ := ih (airStepOf s i).1
    rw [airRun_cons]
    refine ⟨?_, ?_, ?_⟩
    · intro m hm
      simp only [List.mem_append] at hm
      rcases hm with hm | hm
      · exact (hnew_gen m hm).1
      · exact le_trans hstep_gen (ihg m hm)
    · intro m hm hret hgen
      simp only [List.mem_append] at hm
      rcases hm with hm | hm
      · exact hnew_fresh m hm hret hgen
      · have h1 := ihg m hm
        have h2 : (airStepOf s i).1.gen = s.gen := by omega
        have h3 := ihf m hm hret (by omega)
        have h4 := hnext h2.symm
        omega
    · rw [List.pairwise_append]
      refine ⟨hnew_pw, ihp, ?_⟩
      intro m hm m' hm' hret hret' hgen
      have h1 := (hnew_gen m hm).2
      have h2 := ihg m' hm'
      have h3 : m.gen = (airStepOf s i).1.gen := by omega
      have h4 := hnew_bound m hm hret h3
      have h5 := ihf m' hm' hret' (by omega)
      omega

/-- C9 (amended): over every run of the client from its initial state, no two
messages other than the rebind-retried poke ever share an id within one
channel session (same uid); and a 401/403-triggered rebind installs a fresh
channel uid with the id counter reset to 1 — the retried poke itself re-uses
its originally allocated id on the new channel, which a later
counter-allocated id may collide with. -/
theorem airlock_no_id_reuse (inputs : List AirInput) :
    List.Pairwise noReuse (airRun airInit inputs).2 ∧
    (∀ (s : AirState) (first : Nat) (r : Bool), s.connected = true →
      isAuthFail first = true →
      (pokeStep s first r).1.gen = s.gen + 1 ∧ (pokeStep s first r).1.nextId = 1) := by
  refine ⟨(airRun_fresh inputs airInit).2.2, ?_⟩
  intro s first r hc ha
  have hs : isSuccess first = false := by
    simp only [isAuthFail, Bool.or_eq_true, beq_iff_eq] at ha
    simp only [isSuccess, Bool.and_eq_true, decide_eq_true_eq]
    rcases ha with h | h <;> subst h <;> simp
  unfold pokeStep
  rw [if_neg (by simp [hc])]
  rw [hs, ha]
  cases r <;> simp

/-- Witness for C9 (amended): a connected client at generation 0 hit by a
401 rebinds to generation 1 with the id counter back at 1. -/
theorem airlock_no_id_reuse_witness :
    (pokeStep ⟨0, 5, true⟩ 401 true).1.gen = 0 + 1 ∧
    (pokeStep ⟨0, 5, true⟩ 401 true).1.nextId = 1 :=
  (airlock_no_id_reuse []).2 ⟨0, 5, true⟩ 401 true rfl rfl

/-- Counterexample to C9 as frozen: first poke gets 401 (the client rebinds
and poke_inner re-PUTs id 1 on the fresh channel while next_id resets to 1),
then a second poke succeeds — the new session now carries two distinct poke
messages with id 1, so an id IS used twice within one session when the
retried poke is included. -/
theorem airlock_id_reuse_counterexample :
    ¬ List.Pairwise (fun m m' : AirMsg => m.gen = m'.gen → m.id ≠ m'.id)
      (airRun airInit [.pokeCall 401 true, .pokeCall 200 true]).2 := by
  decide

end LoraUrbit

